import Mathlib

/-!
Shallow embedding of the guild-settings module (`src/server_settings.py`)
of the YaDc bot.

Modelling conventions:
* nullable columns and attributes are `Option` values;
* Python truthiness of nullable ints/strings is made explicit (`none`,
  `0` and `""` are falsy);
* the persistence gateway (`db.try_execute`) is an oracle deciding the
  success of each UPDATE statement;
* each entity method returns its boolean outcome, the updated in-memory
  entity, and the list of UPDATE statements it issued, so that
  "no write was issued" is observable;
* a raised Python exception is an `Except.error` (for `set_notify`'s
  `TypeError`) or a `none` result (for the `KeyError` of
  `GuildSettingsCollection.get` and the `TypeError` of `db_get_pfx`),
  as noted at each definition.
-/

set_option maxRecDepth 4000

namespace ServerSettings

/-- Python truthiness of a nullable integer: `None` and `0` are falsy. -/
def truthyNat : Option Nat → Bool
  | none => false
  | some n => n != 0

/-- Python truthiness of a nullable string: `None` and `""` are falsy. -/
def truthyStr : Option String → Bool
  | none => false
  | some s => s != ""

/-- Python `str.lower`. The tokens at play only contain ASCII letters,
    digits and emoji, for which `Char.toLower` agrees with Python. -/
def pyLower (s : String) : String := ⟨s.data.map Char.toLower⟩

/-- Timestamp: the UTC day-of-month that `datetime.day` exposes, plus the
    rest of the instant; two timestamps are equal iff both parts agree. -/
structure Datetime where
  day : Nat
  rest : Nat
deriving DecidableEq

/-- Enum `AutoDailyNotifyType` (server_settings.py lines 60-62). -/
inductive AutoDailyNotifyType where
  | USER
  | ROLE
deriving DecidableEq

/-- Integer code of a notify type (`IntEnum.value`): USER = 1, ROLE = 2. -/
def AutoDailyNotifyType.value : AutoDailyNotifyType → Nat
  | .USER => 1
  | .ROLE => 2

/-- Enum `AutoDailyChangeMode` (lines 65-68), 1-based codes 1/2/3. -/
inductive AutoDailyChangeMode where
  | POST_NEW
  | DELETE_AND_POST_NEW
  | EDIT
deriving DecidableEq

/-- Integer code of a change mode (`IntEnum.value`). -/
def AutoDailyChangeMode.value : AutoDailyChangeMode → Nat
  | .POST_NEW => 1
  | .DELETE_AND_POST_NEW => 2
  | .EDIT => 3

/-- Decoding `AutoDailyChangeMode(i)`: no value for codes outside 1..3. -/
def AutoDailyChangeMode.ofValue : Nat → Option AutoDailyChangeMode
  | 1 => some .POST_NEW
  | 2 => some .DELETE_AND_POST_NEW
  | 3 => some .EDIT
  | _ => none

/-- Constant `DEFAULT_AUTODAILY_CHANGE_MODE` (line 1345). -/
def DEFAULT_AUTODAILY_CHANGE_MODE : AutoDailyChangeMode := .POST_NEW

/-- A chat message as the module reads it: id, creation time, optional
    edit time (`discord.Message.created_at` / `.edited_at`). -/
structure Message where
  id : Nat
  created_at : Datetime
  edited_at : Option Datetime
deriving DecidableEq

/-- A text channel, represented by its id: live-object resolution is an
    external collaborator and only the id is ever read or stored. -/
structure Channel where
  id : Nat
deriving DecidableEq

/-- Runtime argument of `set_notify`: a member, user or role object, or an
    object of some other kind (the case the isinstance checks reject).
    Objects are represented by their ids; a present object is truthy. -/
inductive Mention where
  | member (id : Nat)
  | user (id : Nat)
  | role (id : Nat)
  | other (id : Nat)
deriving DecidableEq

/-- Attribute access `.id` on a mention. -/
def Mention.id : Mention → Nat
  | .member i => i
  | .user i => i
  | .role i => i
  | .other i => i

/-- Runtime-kind dispatch of `set_notify` (lines 345-350): a role maps to
    ROLE, a member or user to USER, anything else has no kind (the code
    raises `TypeError` there). -/
def Mention.kindOf : Mention → Option AutoDailyNotifyType
  | .role _ => some .ROLE
  | .member _ => some .USER
  | .user _ => some .USER
  | .other _ => none

/-- Conversion `convert_from_autodaily_notify_type` (lines 756-760):
    a (truthy) enum member maps to its value, `None` to `None`. -/
def convert_from_autodaily_notify_type : Option AutoDailyNotifyType → Option Nat
  | some t => some t.value
  | none => none

/-- Dictionary `_VALID_PAGINATION_SWITCH_VALUES` (lines 22-33). -/
def VALID_PAGINATION_SWITCH_VALUES : List (String × Bool) :=
  [("on", true), ("true", true), ("1", true), ("yes", true), ("👍", true),
   ("off", false), ("false", false), ("0", false), ("no", false), ("👎", false)]

/-- Conversion `convert_from_on_off` (lines 763-772): lower-case the input,
    then membership test plus dict access, which is exactly association-list
    lookup; unrecognized tokens (and `None`) yield no value. -/
def convert_from_on_off : Option String → Option Bool
  | none => none
  | some switch =>
    match VALID_PAGINATION_SWITCH_VALUES.lookup (pyLower switch) with
    | some result => some result
    | none => none

/-- Conversion `convert_to_on_off` (lines 785-791). -/
def convert_to_on_off : Option Bool → String
  | some true => "ON"
  | some false => "OFF"
  | none => "<NOT SET>"

/-- Column-name-to-new-value dictionary passed to
    `_db_update_server_settings`: an absent key is the outer `none`, a key
    set to SQL NULL is `some none`. The `prefix` column is called `pfx`
    here. -/
structure SettingsDict where
  dailychannelid : Option (Option Nat) := none
  dailycanpost : Option (Option Bool) := none
  dailylatestmessageid : Option (Option Nat) := none
  usepagination : Option (Option Bool) := none
  pfx : Option (Option String) := none
  dailychangemode : Option (Option AutoDailyChangeMode) := none
  dailynotifyid : Option (Option Nat) := none
  dailynotifytype : Option (Option Nat) := none
  dailylatestmessagecreatedate : Option (Option Datetime) := none
  dailylatestmessagemodifydate : Option (Option Datetime) := none
  botnewschannelid : Option (Option Nat) := none
deriving DecidableEq

/-- Python dict emptiness (the `if settings:` test): no key present. -/
def SettingsDict.isEmpty (d : SettingsDict) : Bool :=
  d.dailychannelid.isNone && d.dailycanpost.isNone && d.dailylatestmessageid.isNone &&
  d.usepagination.isNone && d.pfx.isNone && d.dailychangemode.isNone &&
  d.dailynotifyid.isNone && d.dailynotifytype.isNone &&
  d.dailylatestmessagecreatedate.isNone && d.dailylatestmessagemodifydate.isNone &&
  d.botnewschannelid.isNone

/-- One parameterized UPDATE statement issued to the persistence gateway. -/
structure UpdateCall where
  guild_id : Option Nat
  settings : SettingsDict
deriving DecidableEq

/-- Persistence gateway (`db.try_execute`) as an oracle deciding whether
    each UPDATE succeeds. -/
abbrev Gateway := UpdateCall → Bool

/-- Function `_db_update_server_settings` (lines 1319-1331): an empty dict
    reports success without touching the gateway; otherwise exactly one
    UPDATE with all the given columns is issued. -/
def db_update_server_settings (g : Gateway) (gid : Option Nat) (d : SettingsDict) :
    Bool × List UpdateCall :=
  if d.isEmpty then (true, [])
  else (g ⟨gid, d⟩, [⟨gid, d⟩])

/-- Recurring Python gate `not current or new != current` used by
    `set_channel` (line 299), `set_latest_message` (line 320) and
    `set_notify` (line 351): true when the current id is falsy
    (`None` or `0`) or differs from the new id. -/
def pyIdGate (current : Option Nat) (new : Nat) : Bool :=
  !truthyNat current || (some new != current)

/-- In-memory `AutoDailySettings` entity (lines 74-90). The live guild and
    channel objects are represented by guild id and channel id; the notify
    reference is a `Mention`. -/
structure AutoDailySettings where
  guild_id : Option Nat
  channel : Option Channel
  can_post : Option Bool
  change_mode : AutoDailyChangeMode
  latest_message_id : Option Nat
  latest_message_created_at : Option Datetime
  latest_message_modified_at : Option Datetime
  notify : Option Mention
  /-- stale attribute `__delete_on_change`: assigned by `reset` (line 239),
      `reset_daily_delete_on_change` and `update`, but never read; it is
      not initialized by the constructor (`none` here). -/
  delete_on_change : Option AutoDailyChangeMode := none
deriving DecidableEq

/-- Property `channel_id` (lines 104-109). -/
def AutoDailySettings.channel_id (s : AutoDailySettings) : Option Nat :=
  s.channel.map Channel.id

/-- Property `notify_id` (lines 138-143). -/
def AutoDailySettings.notify_id (s : AutoDailySettings) : Option Nat :=
  s.notify.map Mention.id

/-- Method `AutoDailySettings.reset` (lines 226-244). Note that on success
    the in-memory update assigns the stale `__delete_on_change` attribute
    instead of `__change_mode`, so the cached change-mode is left as is
    although the column is written to the default. -/
def AutoDailySettings.reset (g : Gateway) (s : AutoDailySettings) :
    Bool × AutoDailySettings × List UpdateCall :=
  let settings : SettingsDict :=
    { dailychannelid := some none, dailylatestmessageid := some none,
      dailychangemode := some (some DEFAULT_AUTODAILY_CHANGE_MODE),
      dailynotifyid := some none, dailynotifytype := some none,
      dailylatestmessagecreatedate := some none,
      dailylatestmessagemodifydate := some none }
  let r := db_update_server_settings g s.guild_id settings
  if r.1 then
    (true,
     { s with channel := none, delete_on_change := none, notify := none,
              latest_message_id := none, latest_message_created_at := none,
              latest_message_modified_at := none },
     r.2)
  else (false, s, r.2)

/-- Method `AutoDailySettings.set_channel` (lines 298-308). Note that the
    UPDATE clears the latest-message-id column but on success only the
    in-memory channel is updated. -/
def AutoDailySettings.set_channel (g : Gateway) (s : AutoDailySettings) (channel : Channel) :
    Bool × AutoDailySettings × List UpdateCall :=
  if pyIdGate s.channel_id channel.id then
    let settings : SettingsDict :=
      { dailychannelid := some (some channel.id), dailylatestmessageid := some none }
    let r := db_update_server_settings g s.guild_id settings
    if r.1 then (true, { s with channel := some channel }, r.2)
    else (false, s, r.2)
  else (true, s, [])

/-- New-day test of `set_latest_message` (line 314): a null stored
    created-at counts as a new day, otherwise the UTC day-of-month of the
    message's creation is compared with the stored one. -/
def newDayFor (s : AutoDailySettings) (m : Message) : Bool :=
  match s.latest_message_created_at with
  | none => true
  | some c => m.created_at.day != c.day

/-- Method `AutoDailySettings.set_latest_message` (lines 311-339). -/
def AutoDailySettings.set_latest_message (g : Gateway) (s : AutoDailySettings)
    (message : Option Message) : Bool × AutoDailySettings × List UpdateCall :=
  match message with
  | some m =>
    let new_day := newDayFor s m
    let modified_at : Datetime :=
      if new_day then m.created_at else m.edited_at.getD m.created_at
    if pyIdGate s.latest_message_id m.id then
      let settings : SettingsDict :=
        if new_day then
          { dailylatestmessageid := some (some m.id),
            dailylatestmessagemodifydate := some (some modified_at),
            dailylatestmessagecreatedate := some (some m.created_at) }
        else
          { dailylatestmessageid := some (some m.id),
            dailylatestmessagemodifydate := some (some modified_at) }
      let r := db_update_server_settings g s.guild_id settings
      if r.1 then
        (true,
         { s with latest_message_id := some m.id,
                  latest_message_modified_at := some modified_at,
                  latest_message_created_at :=
                    if new_day then some m.created_at else s.latest_message_created_at },
         r.2)
      else (false, s, r.2)
    else (true, s, [])
  | none =>
    let settings : SettingsDict :=
      { dailylatestmessageid := some none,
        dailylatestmessagemodifydate := some none,
        dailylatestmessagecreatedate := some none }
    let r := db_update_server_settings g s.guild_id settings
    if r.1 then
      (true,
       { s with latest_message_id := none, latest_message_modified_at := none,
                latest_message_created_at := none },
       r.2)
    else (false, s, r.2)

/-- Method `AutoDailySettings.set_notify` (lines 342-362). The `TypeError`
    raised for an argument that is neither a role nor a user/member is the
    `Except.error` case; a null argument returns `False` (line 362). -/
def AutoDailySettings.set_notify (g : Gateway) (s : AutoDailySettings) (notify : Option Mention) :
    Except String (Bool × AutoDailySettings × List UpdateCall) :=
  match notify with
  | some n =>
    match n.kindOf with
    | none =>
      .error "Could not set autodaily notify: the provided mention is neither a role nor a user"
    | some notify_type =>
      if pyIdGate s.notify_id n.id then
        let settings : SettingsDict :=
          { dailynotifyid := some (some n.id),
            dailynotifytype := some (convert_from_autodaily_notify_type (some notify_type)) }
        let r := db_update_server_settings g s.guild_id settings
        if r.1 then .ok (true, { s with notify := some n }, r.2)
        else .ok (false, s, r.2)
      else .ok (true, s, [])
  | none => .ok (false, s, [])

/-- Method `AutoDailySettings.toggle_change_mode` (lines 365-374): the new
    value is `AutoDailyChangeMode((int_value % 3) + 1)`; the decode cannot
    fail because `(v % 3) + 1` always lies in 1..3 (the `getD` fallback is
    unreachable). -/
def AutoDailySettings.toggle_change_mode (g : Gateway) (s : AutoDailySettings) :
    Bool × AutoDailySettings × List UpdateCall :=
  let int_value := s.change_mode.value
  let new_value := (AutoDailyChangeMode.ofValue ((int_value % 3) + 1)).getD s.change_mode
  let settings : SettingsDict := { dailychangemode := some (some new_value) }
  let r := db_update_server_settings g s.guild_id settings
  if r.1 then (true, { s with change_mode := new_value }, r.2)
  else (false, s, r.2)

/-- In-memory `GuildSettings` entity (lines 429-515); `pfx` is the
    `__prefix` attribute. -/
structure GuildSettings where
  guild_id : Option Nat
  pfx : Option String
  use_pagination : Option Bool
  bot_news_channel_id : Option Nat
  autodaily : AutoDailySettings
deriving DecidableEq

/-- Property `GuildSettings.prefix` (lines 506-508): `self.__prefix or
    DEFAULT_PREFIX`; `dflt` stands for the external constant
    `app_settings.DEFAULT_PREFIX`. -/
def GuildSettings.prefixValue (dflt : String) (s : GuildSettings) : String :=
  if truthyStr s.pfx then s.pfx.getD dflt else dflt

/-- Method `GuildSettings.reset_pfx` (lines 548-558). -/
def GuildSettings.reset_pfx (g : Gateway) (s : GuildSettings) :
    Bool × GuildSettings × List UpdateCall :=
  if truthyStr s.pfx then
    let r := db_update_server_settings g s.guild_id { pfx := some none }
    if r.1 then (true, { s with pfx := none }, r.2) else (false, s, r.2)
  else (true, s, [])

/-- Method `GuildSettings.reset_use_pagination` (lines 561-570). -/
def GuildSettings.reset_use_pagination (g : Gateway) (s : GuildSettings) :
    Bool × GuildSettings × List UpdateCall :=
  if s.use_pagination.isSome then
    let r := db_update_server_settings g s.guild_id { usepagination := some none }
    if r.1 then (true, { s with use_pagination := none }, r.2) else (false, s, r.2)
  else (true, s, [])

/-- Method `GuildSettings.reset_bot_news_channel` (lines 534-545). -/
def GuildSettings.reset_bot_news_channel (g : Gateway) (s : GuildSettings) :
    Bool × GuildSettings × List UpdateCall :=
  if truthyNat s.bot_news_channel_id then
    let r := db_update_server_settings g s.guild_id { botnewschannelid := some none }
    if r.1 then (true, { s with bot_news_channel_id := none }, r.2) else (false, s, r.2)
  else (true, s, [])

/-- Method `GuildSettings.reset` (lines 526-531): the four sub-resets run
    unconditionally in sequence and their four outcomes are returned. -/
def GuildSettings.reset (g : Gateway) (s : GuildSettings) :
    (Bool × Bool × Bool × Bool) × GuildSettings × List UpdateCall :=
  let r1 := s.reset_pfx g
  let r2 := r1.2.1.reset_use_pagination g
  let r3 := AutoDailySettings.reset g r2.2.1.autodaily
  let s3 : GuildSettings := { r2.2.1 with autodaily := r3.2.1 }
  let r4 := s3.reset_bot_news_channel g
  ((r1.1, r2.1, r3.1, r4.1), r4.2.1, r1.2.2 ++ r2.2.2 ++ r3.2.2 ++ r4.2.2)

/-- One row of the `serversettings` table (column list at lines 36-47);
    the `prefix` column is called `pfx` here. -/
structure Row where
  guildid : Option Nat := none
  pfx : Option String := none
  usepagination : Option Bool := none
  dailycanpost : Option Bool := none
  dailychannelid : Option Nat := none
  dailylatestmessageid : Option Nat := none
  dailychangemode : Option Nat := none
  dailynotifyid : Option Nat := none
  dailynotifytype : Option Nat := none
  dailylatestmessagecreatedate : Option Datetime := none
  dailylatestmessagemodifydate : Option Datetime := none
  botnewschannelid : Option Nat := none
deriving DecidableEq

/-- Storage: the `serversettings` table as a list of rows. -/
abbrev Db := List Row

/-- Rows of the table for one guild id (`SELECT ... WHERE guildid = $1`,
    the `_db_get_server_settings` query of lines 1272-1299). -/
def rowsFor (db : Db) (g : Nat) : List Row :=
  db.filter (fun r => r.guildid == some g)

/-- Row inserted by `db_create_server_settings` (line 936): guild id and
    the default change-mode code, every other column NULL. -/
def defaultRow (g : Nat) : Row :=
  { guildid := some g, dailychangemode := some DEFAULT_AUTODAILY_CHANGE_MODE.value }

/-- Function `db_create_server_settings` (lines 932-938): a no-op when a
    row already exists; `execOk` is the gateway's verdict on the INSERT. -/
def db_create_server_settings (execOk : Bool) (db : Db) (g : Nat) : Bool × Db :=
  if rowsFor db g ≠ [] then (true, db)
  else if execOk then (true, db ++ [defaultRow g]) else (false, db)

/-- Function `db_delete_server_settings` (lines 941-944). -/
def db_delete_server_settings (execOk : Bool) (db : Db) (g : Nat) : Bool × Db :=
  if execOk then (true, db.filter (fun r => r.guildid != some g)) else (false, db)

/-- Constructor `GuildSettings.__init__` from one row (lines 430-479).
    Directory lookups of the live guild/channel objects are external and
    id-preserving here; the notify reference is rebuilt from the stored id
    and kind exactly when both are truthy (after the decode of
    `convert_to_autodaily_notify_type`, unknown kind codes give no
    reference). Change-mode codes outside 1..3 (which Python would keep as
    raw ints) collapse to the default; they never arise in the claims. -/
def GuildSettings.ofRow (row : Row) : GuildSettings :=
  { guild_id := row.guildid
    pfx := row.pfx
    use_pagination := row.usepagination
    bot_news_channel_id := row.botnewschannelid
    autodaily :=
      { guild_id := row.guildid
        channel := row.dailychannelid.map Channel.mk
        can_post := row.dailycanpost
        change_mode :=
          (row.dailychangemode.bind AutoDailyChangeMode.ofValue).getD
            DEFAULT_AUTODAILY_CHANGE_MODE
        latest_message_id :=
          if truthyNat row.dailylatestmessageid then row.dailylatestmessageid else none
        latest_message_created_at := row.dailylatestmessagecreatedate
        latest_message_modified_at := row.dailylatestmessagemodifydate
        notify :=
          if truthyNat row.dailynotifyid && truthyNat row.dailynotifytype then
            match row.dailynotifytype, row.dailynotifyid with
            | some 1, some i => some (.member i)
            | some 2, some i => some (.role i)
            | _, _ => none
          else none } }

/-- In-memory registry `GuildSettingsCollection.__data` (line 633). -/
abbrev Cache := List (Nat × GuildSettings)

/-- Python dict assignment `self.__data[guild_id] = value`. -/
def cacheInsert (cache : Cache) (g : Nat) (gs : GuildSettings) : Cache :=
  (g, gs) :: cache.filter (fun p => p.1 != g)

/-- Method `GuildSettingsCollection.create_guild_settings` (lines 645-654):
    create the row, reload it, cache the rebuilt entity; reports `False`
    when the reload finds nothing. -/
def create_guild_settings (execOk : Bool) (db : Db) (cache : Cache) (g : Nat) :
    Bool × Db × Cache :=
  let r := db_create_server_settings execOk db g
  if r.1 then
    match rowsFor r.2 g with
    | row :: _ => (true, r.2, cacheInsert cache g (GuildSettings.ofRow row))
    | [] => (false, r.2, cache)
  else (false, r.2, cache)

/-- Method `GuildSettingsCollection.delete_guild_settings` (lines 657-661). -/
def delete_guild_settings (execOk : Bool) (db : Db) (cache : Cache) (g : Nat) :
    Bool × Db × Cache :=
  let r := db_delete_server_settings execOk db g
  if r.1 && (cache.lookup g).isSome then (r.1, r.2, cache.filter (fun p => p.1 != g))
  else (r.1, r.2, cache)

/-- Method `GuildSettingsCollection.get` (lines 664-667): a missing guild
    id triggers lazy creation, then `self.__data[guild_id]` is returned;
    `none` in the first component models the `KeyError` this line raises
    when the guild is still missing after the creation attempt. -/
def GuildSettingsCollection.get (execOk : Bool) (db : Db) (cache : Cache) (g : Nat) :
    Option GuildSettings × Db × Cache :=
  if (cache.lookup g).isNone then
    let r := create_guild_settings execOk db cache g
    (r.2.2.lookup g, r.2.1, r.2.2)
  else (cache.lookup g, db, cache)

/-- Function `db_get_pfx` (lines 1026-1030): ensure the row exists,
    fetch the prefix column and coalesce a falsy value to null
    (`result[0] or None`). The outer `none` models the `TypeError` raised
    by `result[0]` when no row came back at all. -/
def db_get_pfx (execOk : Bool) (db : Db) (g : Nat) : Option (Option String) × Db :=
  let r := db_create_server_settings execOk db g
  match rowsFor r.2 g with
  | row :: _ => (some (if truthyStr row.pfx then row.pfx else none), r.2)
  | [] => (none, r.2)

/-- Function `get_prefix_or_default` (lines 847-851); `dflt` stands for
    the external constant `app_settings.DEFAULT_PREFIX`. -/
def get_prefix_or_default (dflt : String) (execOk : Bool) (db : Db) (g : Nat) :
    Option String × Db :=
  match db_get_pfx execOk db g with
  | (some result, db2) =>
    match result with
    | none => (some dflt, db2)
    | some p => if pyLower p = "none" then (some dflt, db2) else (some p, db2)
  | (none, db2) => (none, db2)

/-- Gateway that accepts every UPDATE (all writes succeed). -/
def gAll : Gateway := fun _ => true

/-- Sample entity: a freshly configured autodaily record with nothing set. -/
def adBase : AutoDailySettings :=
  { guild_id := some 1, channel := none, can_post := none,
    change_mode := .POST_NEW, latest_message_id := none,
    latest_message_created_at := none, latest_message_modified_at := none,
    notify := none }

/-- Sample entity: change-mode EDIT, a channel and a recorded message. -/
def adEdit : AutoDailySettings :=
  { adBase with change_mode := .EDIT, channel := some ⟨1⟩, latest_message_id := some 42 }

/-- Sample entity: message 10 recorded on day 5, last modified at (5,1). -/
def adMsgState : AutoDailySettings :=
  { adBase with
      latest_message_id := some 10,
      latest_message_created_at := some ⟨5, 0⟩,
      latest_message_modified_at := some ⟨5, 1⟩ }

/-- Sample entity: the Python-falsy message id 0 recorded on day 5. -/
def adMsg0 : AutoDailySettings :=
  { adBase with
      latest_message_id := some 0,
      latest_message_created_at := some ⟨5, 0⟩,
      latest_message_modified_at := some ⟨5, 2⟩ }

/-- Sample message: id 10, created on day 5, edited at (5,2). -/
def msgSameId : Message := ⟨10, ⟨5, 0⟩, some ⟨5, 2⟩⟩

/-- Sample message: id 10, created on day 6, never edited. -/
def msgSameIdNewDay : Message := ⟨10, ⟨6, 0⟩, none⟩

/-- Sample message: id 0, created on day 5, edited at (5,2). -/
def msgZero : Message := ⟨0, ⟨5, 0⟩, some ⟨5, 2⟩⟩

/-- Sample message: id 11, created on day 5, edited at (5,4). -/
def msgNewSameDay : Message := ⟨11, ⟨5, 3⟩, some ⟨5, 4⟩⟩

/-- Sample entity: notify target is the user with the Python-falsy id 0. -/
def adNotify0 : AutoDailySettings := { adBase with notify := some (.user 0) }

/-- Sample entity: notify target is role 4. -/
def adRole4 : AutoDailySettings := { adBase with notify := some (.role 4) }

/-- Writes issued by a `set_notify` call (none if it raised). -/
def exceptWrites : Except String (Bool × AutoDailySettings × List UpdateCall) → List UpdateCall
  | .ok r => r.2.2
  | .error _ => []

/-- Gateway that fails exactly the statements touching the pagination
    column and accepts every other write. -/
def gPagFail : Gateway := fun u => u.settings.usepagination.isNone

/-- Sample guild entity with prefix, pagination and bot-news channel set. -/
def gsFull : GuildSettings :=
  { guild_id := some 1, pfx := some "!", use_pagination := some true,
    bot_news_channel_id := some 3, autodaily := adBase }

/-- Sample row: stored prefix "NONE". -/
def rowNonePfx : Row := { guildid := some 4, pfx := some "NONE" }

/-- Sample row: stored prefix "!". -/
def rowBang : Row := { guildid := some 5, pfx := some "!" }

/-- Sample row: stored prefix is the empty string. -/
def rowEmptyPfx : Row := { guildid := some 3, pfx := some "" }

/-! ## Theorems about the claims -/

/-- C4: assuming the write succeeds, `toggle_change_mode` advances the
    change-mode by the 1-based code arithmetic `(current % 3) + 1`, which
    cycles POST_NEW → DELETE_AND_POST_NEW → EDIT → POST_NEW within the
    three-member enum (never any other value), and three applications
    return to the starting value. -/
theorem C4_toggle_change_mode_cycles (g : Gateway) (hg : ∀ u, g u = true)
    (s : AutoDailySettings) :
    (s.toggle_change_mode g).1 = true
    ∧ (s.toggle_change_mode g).2.1.change_mode.value = (s.change_mode.value % 3) + 1
    ∧ (s.toggle_change_mode g).2.1.change_mode =
        (match s.change_mode with
         | .POST_NEW => .DELETE_AND_POST_NEW
         | .DELETE_AND_POST_NEW => .EDIT
         | .EDIT => .POST_NEW)
    ∧ (((s.toggle_change_mode g).2.1.toggle_change_mode g).2.1.toggle_change_mode g).2.1.change_mode
        = s.change_mode := by
  cases h : s.change_mode <;>
    simp [AutoDailySettings.toggle_change_mode, db_update_server_settings,
      SettingsDict.isEmpty, hg, AutoDailyChangeMode.value, AutoDailyChangeMode.ofValue, h]

/-- Witness for C4 at the all-accepting gateway and the base sample state. -/
theorem C4_toggle_change_mode_cycles_witness :
    (adBase.toggle_change_mode gAll).1 = true
    ∧ (adBase.toggle_change_mode gAll).2.1.change_mode.value = (adBase.change_mode.value % 3) + 1
    ∧ (adBase.toggle_change_mode gAll).2.1.change_mode =
        (match adBase.change_mode with
         | .POST_NEW => .DELETE_AND_POST_NEW
         | .DELETE_AND_POST_NEW => .EDIT
         | .EDIT => .POST_NEW)
    ∧ (((adBase.toggle_change_mode gAll).2.1.toggle_change_mode gAll).2.1.toggle_change_mode gAll).2.1.change_mode
        = adBase.change_mode :=
  C4_toggle_change_mode_cycles gAll (fun _ => rfl) adBase

/-- C9: round-trip of the pagination switch codec: every case variant of
    the on-tokens maps through `convert_from_on_off` and back to "ON",
    every case variant of the off-tokens to "OFF", and every string
    outside the recognized token set yields no value (without raising),
    which displays as "<NOT SET>". -/
theorem C9_on_off_roundtrip :
    (∀ s : String,
      pyLower s = "on" ∨ pyLower s = "1" ∨ pyLower s = "yes" ∨ pyLower s = "👍" →
      convert_to_on_off (convert_from_on_off (some s)) = "ON")
    ∧ (∀ s : String,
      pyLower s = "off" ∨ pyLower s = "0" ∨ pyLower s = "no" ∨ pyLower s = "👎" →
      convert_to_on_off (convert_from_on_off (some s)) = "OFF")
    ∧ (∀ s : String,
      VALID_PAGINATION_SWITCH_VALUES.lookup (pyLower s) = none →
      convert_from_on_off (some s) = none
      ∧ convert_to_on_off (convert_from_on_off (some s)) = "<NOT SET>") := by
  refine ⟨?_, ?_, ?_⟩ <;> intro s h
  · rcases h with h | h | h | h <;>
      simp [convert_from_on_off, h, VALID_PAGINATION_SWITCH_VALUES, List.lookup,
        convert_to_on_off]
  · rcases h with h | h | h | h <;>
      simp [convert_from_on_off, h, VALID_PAGINATION_SWITCH_VALUES, List.lookup,
        convert_to_on_off]
  · simp [convert_from_on_off, h, convert_to_on_off]

/-- Witness for C9 at the tokens "ON", "👎" and the unrecognized "banana". -/
theorem C9_on_off_roundtrip_witness :
    convert_to_on_off (convert_from_on_off (some "ON")) = "ON"
    ∧ convert_to_on_off (convert_from_on_off (some "👎")) = "OFF"
    ∧ convert_from_on_off (some "banana") = none :=
  ⟨C9_on_off_roundtrip.1 "ON" (by decide),
   C9_on_off_roundtrip.2.1 "👎" (by decide),
   (C9_on_off_roundtrip.2.2 "banana" (by decide)).1⟩

/-- C2: at the failing input the cache diverges from storage after a
    successful write: `reset` writes change-mode POST_NEW to the column
    yet the cached change-mode stays EDIT (the stale `__delete_on_change`
    attribute is assigned instead of `__change_mode`), and `set_channel`
    to a new channel clears the latest-message-id column while the cached
    value stays 42. -/
theorem C2_cache_storage_divergence :
    ((adEdit.reset gAll).1 = true
      ∧ (adEdit.reset gAll).2.1.change_mode = .EDIT
      ∧ (adEdit.reset gAll).2.1.change_mode ≠ DEFAULT_AUTODAILY_CHANGE_MODE
      ∧ ∀ u ∈ (adEdit.reset gAll).2.2,
          u.settings.dailychangemode = some (some DEFAULT_AUTODAILY_CHANGE_MODE))
    ∧ ((adEdit.set_channel gAll ⟨2⟩).1 = true
      ∧ (adEdit.set_channel gAll ⟨2⟩).2.1.latest_message_id = some 42
      ∧ ∀ u ∈ (adEdit.set_channel gAll ⟨2⟩).2.2,
          u.settings.dailylatestmessageid = some none) := by
  decide

/-- C8 counterexample: with the Python-falsy channel id 0 the gate
    `not self.channel_id` is true again on the second call, so calling
    `set_channel` twice with the same channel issues two UPDATEs in
    total, not at most one. -/
theorem C8_counterexample :
    (adBase.set_channel gAll ⟨0⟩).2.2.length
      + ((adBase.set_channel gAll ⟨0⟩).2.1.set_channel gAll ⟨0⟩).2.2.length = 2 := by
  decide

/-- C8 amended: for every channel with a nonzero id, two successive
    `set_channel` calls with that channel issue at most one write in
    total (the second call is a no-op), both report success assuming the
    write succeeds, and the entity state after the second call equals the
    state after the first. -/
theorem C8_set_channel_idempotent (g : Gateway) (hg : ∀ u, g u = true)
    (s : AutoDailySettings) (c : Channel) (hc : c.id ≠ 0) :
    (s.set_channel g c).1 = true
    ∧ ((s.set_channel g c).2.1.set_channel g c).1 = true
    ∧ ((s.set_channel g c).2.1.set_channel g c).2.1 = (s.set_channel g c).2.1
    ∧ (s.set_channel g c).2.2.length
        + ((s.set_channel g c).2.1.set_channel g c).2.2.length ≤ 1 := by
  by_cases h : pyIdGate s.channel_id c.id = true
  · have h2 : pyIdGate (AutoDailySettings.channel_id { s with channel := some c }) c.id
        = false := by
      simp [AutoDailySettings.channel_id, pyIdGate, truthyNat, hc]
    simp [AutoDailySettings.set_channel, h, h2, db_update_server_settings,
      SettingsDict.isEmpty, hg]
  · rw [Bool.not_eq_true] at h
    simp [AutoDailySettings.set_channel, h]

/-- Witness for C8 at channel 5, the base sample state and the
    all-accepting gateway. -/
theorem C8_set_channel_idempotent_witness :
    (adBase.set_channel gAll ⟨5⟩).1 = true
    ∧ ((adBase.set_channel gAll ⟨5⟩).2.1.set_channel gAll ⟨5⟩).1 = true
    ∧ ((adBase.set_channel gAll ⟨5⟩).2.1.set_channel gAll ⟨5⟩).2.1
        = (adBase.set_channel gAll ⟨5⟩).2.1
    ∧ (adBase.set_channel gAll ⟨5⟩).2.2.length
        + ((adBase.set_channel gAll ⟨5⟩).2.1.set_channel gAll ⟨5⟩).2.2.length ≤ 1 :=
  C8_set_channel_idempotent gAll (fun _ => rfl) adBase ⟨5⟩ (by decide)

/-- C5 counterexample: with an empty cache and storage and a gateway that
    fails the row-creation INSERT, `get` does not surface the failure as
    a boolean or empty result: the final `self.__data[guild_id]` lookup
    finds nothing, i.e. raises `KeyError` (the `none` outcome), even
    though `create_guild_settings` itself reported `False`. -/
theorem C5_counterexample :
    (GuildSettingsCollection.get false [] [] 7).1 = none
    ∧ (create_guild_settings false [] [] 7).1 = false := by
  decide

/-- C5 amended: the collection's boolean-returning operations
    (`create_guild_settings`, `delete_guild_settings`) propagate a
    gateway failure as `false` without raising, but `get` on an uncached
    guild id whose lazy row creation fails ends in a `KeyError` (no
    entity is returned) rather than a boolean or empty result. -/
theorem C5_storage_failure_propagation (db : Db) (cache : Cache) (g : Nat)
    (hc : cache.lookup g = none) (hdb : rowsFor db g = []) :
    create_guild_settings false db cache g = (false, db, cache)
    ∧ delete_guild_settings false db cache g = (false, db, cache)
    ∧ (GuildSettingsCollection.get false db cache g).1 = none := by
  have h1 : db_create_server_settings false db g = (false, db) := by
    simp [db_create_server_settings, hdb]
  have h2 : create_guild_settings false db cache g = (false, db, cache) := by
    simp [create_guild_settings, h1]
  refine ⟨h2, by simp [delete_guild_settings, db_delete_server_settings], ?_⟩
  simp [GuildSettingsCollection.get, hc, h2]

/-- Witness for C5 at guild 9 with empty cache and storage. -/
theorem C5_storage_failure_witness :
    create_guild_settings false [] [] 9 = (false, [], [])
    ∧ delete_guild_settings false [] [] 9 = (false, [], [])
    ∧ (GuildSettingsCollection.get false [] [] 9).1 = none :=
  C5_storage_failure_propagation [] [] 9 rfl rfl

/-- C1 counterexample: when the incoming message's id equals the stored
    latest-message id, `set_latest_message` is a no-op with no write even
    though the same-day message carries an edit timestamp differing from
    the stored modified-at (modified-at is not advanced), and even when
    the message is from another day (created-at is not advanced either);
    conversely, with the Python-falsy stored id 0 a write is issued
    although neither the resulting id nor modified-at differs from
    current state. -/
theorem C1_counterexample :
    adMsgState.set_latest_message gAll (some msgSameId) = (true, adMsgState, [])
    ∧ msgSameId.created_at.day = 5
    ∧ adMsgState.latest_message_created_at = some ⟨5, 0⟩
    ∧ msgSameId.edited_at ≠ adMsgState.latest_message_modified_at
    ∧ adMsgState.set_latest_message gAll (some msgSameIdNewDay) = (true, adMsgState, [])
    ∧ msgSameIdNewDay.created_at.day = 6
    ∧ ((adMsg0.set_latest_message gAll (some msgZero)).2.2.length = 1
        ∧ (adMsg0.set_latest_message gAll (some msgZero)).2.1.latest_message_id
            = adMsg0.latest_message_id
        ∧ (adMsg0.set_latest_message gAll (some msgZero)).2.1.latest_message_modified_at
            = adMsg0.latest_message_modified_at) := by
  decide

/-- C1 amended: the temporal merge law holds under the message-id gate of
    `set_latest_message` (it applies only when the message id differs from
    the stored truthy latest-message id): for a same-day message passing
    the gate, modified-at becomes the edit time (or creation time if never
    edited) and created-at is unchanged; for a new-day message passing the
    gate (a null stored created-at counts as a new day) both are set to
    the message's creation time; a message whose id equals the stored
    nonzero id is a no-op reporting success without a write; and, for a
    nonzero message id, a write is issued only when the resulting id or
    modified-at differs from current state. -/
theorem C1_set_latest_message_merge (g : Gateway) (hg : ∀ u, g u = true)
    (s : AutoDailySettings) (m : Message) :
    (newDayFor s m = false → pyIdGate s.latest_message_id m.id = true →
      s.set_latest_message g (some m)
        = (true,
           { s with latest_message_id := some m.id,
                    latest_message_modified_at := some (m.edited_at.getD m.created_at) },
           [⟨s.guild_id,
             { dailylatestmessageid := some (some m.id),
               dailylatestmessagemodifydate := some (some (m.edited_at.getD m.created_at)) }⟩]))
    ∧ (newDayFor s m = true → pyIdGate s.latest_message_id m.id = true →
      s.set_latest_message g (some m)
        = (true,
           { s with latest_message_id := some m.id,
                    latest_message_modified_at := some m.created_at,
                    latest_message_created_at := some m.created_at },
           [⟨s.guild_id,
             { dailylatestmessageid := some (some m.id),
               dailylatestmessagemodifydate := some (some m.created_at),
               dailylatestmessagecreatedate := some (some m.created_at) }⟩]))
    ∧ (s.latest_message_id = some m.id → m.id ≠ 0 →
      s.set_latest_message g (some m) = (true, s, []))
    ∧ (m.id ≠ 0 → (s.set_latest_message g (some m)).2.2 ≠ [] →
      (s.set_latest_message g (some m)).2.1.latest_message_id ≠ s.latest_message_id
      ∨ (s.set_latest_message g (some m)).2.1.latest_message_modified_at
          ≠ s.latest_message_modified_at) := by
  refine ⟨?_, ?_, ?_, ?_⟩
  · intro hnd hgate
    simp [AutoDailySettings.set_latest_message, hnd, hgate, db_update_server_settings,
      SettingsDict.isEmpty, hg]
  · intro hnd hgate
    simp [AutoDailySettings.set_latest_message, hnd, hgate, db_update_server_settings,
      SettingsDict.isEmpty, hg]
  · intro hid h0
    have hgate : pyIdGate s.latest_message_id m.id = false := by
      rw [hid]
      simp [pyIdGate, truthyNat, h0]
    simp [AutoDailySettings.set_latest_message, hgate]
  · intro h0 hw
    by_cases hgate : pyIdGate s.latest_message_id m.id = true
    · have hne : s.latest_message_id ≠ some m.id := by
        intro he
        rw [he] at hgate
        simp [pyIdGate, truthyNat, h0] at hgate
      have hid2 : (s.set_latest_message g (some m)).2.1.latest_message_id = some m.id := by
        cases hnd : newDayFor s m <;>
          simp [AutoDailySettings.set_latest_message, hnd, hgate,
            db_update_server_settings, SettingsDict.isEmpty, hg]
      exact Or.inl (by rw [hid2]; exact fun he => hne he.symm)
    · rw [Bool.not_eq_true] at hgate
      simp [AutoDailySettings.set_latest_message, hgate] at hw

/-- Witness for C1: a same-day message with a fresh id passes the gate and
    advances modified-at while created-at stays put. -/
theorem C1_set_latest_message_witness :
    adMsgState.set_latest_message gAll (some msgNewSameDay)
      = (true,
         { adMsgState with
             latest_message_id := some msgNewSameDay.id,
             latest_message_modified_at :=
               some (msgNewSameDay.edited_at.getD msgNewSameDay.created_at) },
         [⟨adMsgState.guild_id,
           { dailylatestmessageid := some (some msgNewSameDay.id),
             dailylatestmessagemodifydate :=
               some (some (msgNewSameDay.edited_at.getD msgNewSameDay.created_at)) }⟩]) :=
  (C1_set_latest_message_merge gAll (fun _ => rfl) adMsgState msgNewSameDay).1
    (by decide) (by decide)

/-- C6 counterexample: a null argument is neither a user/member nor a
    role, yet `set_notify` reports `False` without raising any
    invalid-argument error; moreover, with the Python-falsy notify id 0,
    an argument whose identifier equals the current notify id still
    issues a write instead of being a no-op. -/
theorem C6_counterexample :
    adBase.set_notify gAll none = Except.ok (false, adBase, [])
    ∧ adNotify0.notify_id = some 0
    ∧ (exceptWrites (adNotify0.set_notify gAll (some (.user 0)))).length = 1 :=
  ⟨rfl, rfl, rfl⟩

/-- C6 amended: `set_notify` of a null argument reports `False` with no
    write and no error; a non-null argument that is neither a user/member
    nor a role fails with the invalid-argument `TypeError`; when the
    argument's identifier equals the current truthy (nonzero) notify id
    the call is a no-op reporting success without a write; otherwise the
    notify id and the kind derived from the argument's runtime kind are
    written together in one statement and on success the in-memory notify
    reference is updated. -/
theorem C6_set_notify_behaviour (g : Gateway) (hg : ∀ u, g u = true)
    (s : AutoDailySettings) :
    (s.set_notify g none = Except.ok (false, s, []))
    ∧ (∀ i, s.set_notify g (some (.other i))
        = Except.error
            "Could not set autodaily notify: the provided mention is neither a role nor a user")
    ∧ (∀ n : Mention, n.kindOf ≠ none → s.notify_id = some n.id → n.id ≠ 0 →
        s.set_notify g (some n) = Except.ok (true, s, []))
    ∧ (∀ n : Mention, ∀ t, n.kindOf = some t → pyIdGate s.notify_id n.id = true →
        s.set_notify g (some n)
          = Except.ok (true, { s with notify := some n },
              [⟨s.guild_id,
                { dailynotifyid := some (some n.id),
                  dailynotifytype := some (some t.value) }⟩])) := by
  refine ⟨rfl, fun i => rfl, ?_, ?_⟩
  · intro n hk hid h0
    have hgate : pyIdGate s.notify_id n.id = false := by
      rw [hid]
      simp [pyIdGate, truthyNat, h0]
    rcases n with i | i | i | i
    · simp only [Mention.id] at hgate
      simp [AutoDailySettings.set_notify, Mention.kindOf, Mention.id, hgate]
    · simp only [Mention.id] at hgate
      simp [AutoDailySettings.set_notify, Mention.kindOf, Mention.id, hgate]
    · simp only [Mention.id] at hgate
      simp [AutoDailySettings.set_notify, Mention.kindOf, Mention.id, hgate]
    · exact absurd rfl hk
  · intro n t ht hgate
    rcases n with i | i | i | i
    · simp only [Mention.kindOf, Option.some.injEq] at ht
      simp only [Mention.id] at hgate
      subst ht
      simp [AutoDailySettings.set_notify, Mention.kindOf, Mention.id, hgate,
        db_update_server_settings, SettingsDict.isEmpty, hg,
        convert_from_autodaily_notify_type, AutoDailyNotifyType.value]
    · simp only [Mention.kindOf, Option.some.injEq] at ht
      simp only [Mention.id] at hgate
      subst ht
      simp [AutoDailySettings.set_notify, Mention.kindOf, Mention.id, hgate,
        db_update_server_settings, SettingsDict.isEmpty, hg,
        convert_from_autodaily_notify_type, AutoDailyNotifyType.value]
    · simp only [Mention.kindOf, Option.some.injEq] at ht
      simp only [Mention.id] at hgate
      subst ht
      simp [AutoDailySettings.set_notify, Mention.kindOf, Mention.id, hgate,
        db_update_server_settings, SettingsDict.isEmpty, hg,
        convert_from_autodaily_notify_type, AutoDailyNotifyType.value]
    · simp [Mention.kindOf] at ht

/-- Witness for C6: setting the already-set role 4 is a no-op success. -/
theorem C6_set_notify_witness :
    adRole4.set_notify gAll (some (.role 4)) = Except.ok (true, adRole4, []) :=
  (C6_set_notify_behaviour gAll (fun _ => rfl) adRole4).2.2.1 (.role 4)
    (by decide) (by decide) (by decide)

/-- C3: lazy materialization: for a guild id present neither in the cache
    nor in storage, `get` (with a functioning gateway) returns the entity
    rebuilt from the freshly inserted default row, whose prefix reads as
    the configured default, and storage afterwards holds exactly one row
    for that guild: the default row, whose change-mode code is that of
    POST_NEW. -/
theorem C3_lazy_materialization (dflt : String) (db : Db) (cache : Cache) (g : Nat)
    (hc : cache.lookup g = none) (hdb : rowsFor db g = []) :
    (GuildSettingsCollection.get true db cache g).1 = some (GuildSettings.ofRow (defaultRow g))
    ∧ GuildSettings.prefixValue dflt (GuildSettings.ofRow (defaultRow g)) = dflt
    ∧ rowsFor (GuildSettingsCollection.get true db cache g).2.1 g = [defaultRow g]
    ∧ (defaultRow g).dailychangemode = some DEFAULT_AUTODAILY_CHANGE_MODE.value := by
  have hcreate : db_create_server_settings true db g = (true, db ++ [defaultRow g]) := by
    simp [db_create_server_settings, hdb]
  have hrows : rowsFor (db ++ [defaultRow g]) g = [defaultRow g] := by
    unfold rowsFor at hdb ⊢
    simp [List.filter_append, hdb, defaultRow]
  have hcgs : create_guild_settings true db cache g
      = (true, db ++ [defaultRow g], cacheInsert cache g (GuildSettings.ofRow (defaultRow g))) := by
    simp [create_guild_settings, hcreate, hrows]
  have hlook : (cacheInsert cache g (GuildSettings.ofRow (defaultRow g))).lookup g
      = some (GuildSettings.ofRow (defaultRow g)) := by
    simp [cacheInsert, List.lookup]
  refine ⟨?_, ?_, ?_, rfl⟩
  · simp [GuildSettingsCollection.get, hc, hcgs, hlook]
  · simp [GuildSettings.prefixValue, GuildSettings.ofRow, defaultRow, truthyStr]
  · simp [GuildSettingsCollection.get, hc, hcgs, hrows]

/-- Witness for C3 at guild 1, default prefix "/", empty cache and storage. -/
theorem C3_lazy_materialization_witness :
    (GuildSettingsCollection.get true [] [] 1).1 = some (GuildSettings.ofRow (defaultRow 1))
    ∧ GuildSettings.prefixValue "/" (GuildSettings.ofRow (defaultRow 1)) = "/"
    ∧ rowsFor (GuildSettingsCollection.get true [] [] 1).2.1 1 = [defaultRow 1]
    ∧ (defaultRow 1).dailychangemode = some DEFAULT_AUTODAILY_CHANGE_MODE.value :=
  C3_lazy_materialization "/" [] [] 1 rfl rfl

/-- C7: the four sub-resets of `GuildSettings.reset` run unconditionally
    in sequence, each returned component is exactly the outcome of its
    corresponding sub-reset, and with a gateway failing exactly the
    statements that touch the pagination column (and a pagination value
    set, so that a pagination write is attempted) the returned four-tuple
    is (true, false, true, true): the pagination failure does not prevent
    the prefix, autodaily and bot-news resets from succeeding. -/
theorem C7_reset_independent (g : Gateway) (s : GuildSettings)
    (hok : ∀ u : UpdateCall, u.settings.usepagination = none → g u = true)
    (hfail : ∀ u : UpdateCall, u.settings.usepagination ≠ none → g u = false)
    (hp : s.use_pagination.isSome = true) :
    (GuildSettings.reset g s).1 = (true, false, true, true)
    ∧ ∀ (g2 : Gateway) (t : GuildSettings),
        (GuildSettings.reset g2 t).1
          = ((t.reset_pfx g2).1,
             ((t.reset_pfx g2).2.1.reset_use_pagination g2).1,
             (AutoDailySettings.reset g2
               ((t.reset_pfx g2).2.1.reset_use_pagination g2).2.1.autodaily).1,
             (GuildSettings.reset_bot_news_channel g2
               { ((t.reset_pfx g2).2.1.reset_use_pagination g2).2.1 with
                   autodaily :=
                     (AutoDailySettings.reset g2
                       ((t.reset_pfx g2).2.1.reset_use_pagination g2).2.1.autodaily).2.1 }).1) := by
  constructor
  · rcases hps : s.use_pagination with _ | b
    · rw [hps] at hp
      simp at hp
    · by_cases hpx : truthyStr s.pfx = true <;>
        by_cases hbn : truthyNat s.bot_news_channel_id = true <;>
          simp [GuildSettings.reset, GuildSettings.reset_pfx,
            GuildSettings.reset_use_pagination, GuildSettings.reset_bot_news_channel,
            AutoDailySettings.reset, db_update_server_settings, SettingsDict.isEmpty,
            hpx, hbn, hps, hok, hfail]
  · intro g2 t
    rfl

/-- Witness for C7 at the fully configured sample guild entity and the
    pagination-failing gateway. -/
theorem C7_reset_independent_witness :
    (GuildSettings.reset gPagFail gsFull).1 = (true, false, true, true) :=
  (C7_reset_independent gPagFail gsFull
    (fun u hu => by simp [gPagFail, hu])
    (fun u hu => by
      have hs := Option.ne_none_iff_isSome.mp hu
      simp [gPagFail, hs])
    rfl).1

/-- C10 counterexample: a stored empty-string prefix is neither null nor
    "none" (in any casing), yet `get_prefix_or_default` returns the
    default instead of the stored prefix, because `db_get_pfx`
    coalesces the Python-falsy string to null (`result[0] or None`). -/
theorem C10_counterexample :
    rowEmptyPfx.pfx = some ""
    ∧ (get_prefix_or_default "/" true [rowEmptyPfx] 3).1 = some "/"
    ∧ (some "/" : Option String) ≠ some "" := by
  decide

/-- C10 amended: `get_prefix_or_default` returns the configured default
    when the stored prefix is null, the empty string, or equals "none"
    case-insensitively; in every other case it returns the stored prefix
    unchanged. -/
theorem C10_get_prefix_or_default_behaviour (dflt : String) (execOk : Bool) (db : Db)
    (g : Nat) (row : Row) (rest : List Row) (hr : rowsFor db g = row :: rest) :
    ((row.pfx = none ∨ row.pfx = some "" ∨ ∃ p, row.pfx = some p ∧ pyLower p = "none") →
      (get_prefix_or_default dflt execOk db g).1 = some dflt)
    ∧ (∀ p, row.pfx = some p → p ≠ "" → pyLower p ≠ "none" →
      (get_prefix_or_default dflt execOk db g).1 = some p) := by
  have hcreate : db_create_server_settings execOk db g = (true, db) := by
    simp [db_create_server_settings, hr]
  have hget : db_get_pfx execOk db g
      = (some (if truthyStr row.pfx then row.pfx else none), db) := by
    simp [db_get_pfx, hcreate, hr]
  constructor
  · intro hp
    rcases hp with hp | hp | ⟨p, hp, hlow⟩
    · simp [get_prefix_or_default, hget, hp, truthyStr]
    · simp [get_prefix_or_default, hget, hp, truthyStr]
    · have hpe : p ≠ "" := by
        intro he
        rw [he] at hlow
        exact absurd hlow (by decide)
      simp [get_prefix_or_default, hget, hp, truthyStr, hpe, hlow]
  · intro p hp hpe hlow
    simp [get_prefix_or_default, hget, hp, truthyStr, hpe, hlow]

/-- Witness for C10: a stored "NONE" maps to the default, a stored "!" is
    returned unchanged. -/
theorem C10_get_prefix_or_default_witness :
    (get_prefix_or_default "/" true [rowNonePfx] 4).1 = some "/"
    ∧ (get_prefix_or_default "/" true [rowBang] 5).1 = some "!" :=
  ⟨(C10_get_prefix_or_default_behaviour "/" true [rowNonePfx] 4 rowNonePfx [] (by decide)).1
      (Or.inr (Or.inr ⟨"NONE", rfl, by decide⟩)),
   (C10_get_prefix_or_default_behaviour "/" true [rowBang] 5 rowBang [] (by decide)).2
      "!" rfl (by decide) (by decide)⟩

end ServerSettings
